import Mathlib

/-!
Verification development for the `roundtripper` Confluence synchronization
tool.  The definitions below are a shallow embedding of the push engine
(`src/roundtripper/push_service.py`), the diff engine
(`src/roundtripper/diff_service.py`) and — where the source module is not
part of the shipped sources — a model of the pull engine built from the
specification (`spec.md`) and exercised against the behaviour recorded in
the repository's test suite.

External collaborators (the Confluence client, the `diff`/pager
subprocesses, the `xmllint` formatter) are modelled as explicit inputs:
each remote call is an `Except`-valued outcome and each subprocess run is
a value describing its exit code and captured output.
-/

/-! ## Operation results (models.py, shapes witnessed by tests/test_models.py) -/

/-- Result summary of a push run (`PushResult` in models.py; defaults per
tests/test_models.py). -/
structure PushResult where
  pages_updated : Nat := 0
  pages_created : Nat := 0
  pages_skipped : Nat := 0
  attachments_uploaded : Nat := 0
  attachments_skipped : Nat := 0
  conflicts : List String := []
  errors : List String := []
  deriving Repr, DecidableEq

/-- Result summary of a pull run (`PullResult` in models.py; defaults per
tests/test_models.py). -/
structure PullResult where
  pages_downloaded : Nat := 0
  pages_skipped : Nat := 0
  attachments_downloaded : Nat := 0
  attachments_skipped : Nat := 0
  errors : List String := []
  deriving Repr, DecidableEq

/-- Result of a diff run (`DiffResult` in models.py): a difference flag,
defaulting to false, and a list of error strings. -/
structure DiffResult where
  has_differences : Bool := false
  errors : List String := []
  deriving Repr, DecidableEq

/-! ## Push engine (push_service.py) -/

/-- The fields of a parsed `page.json` metadata document that the push
engine reads (`PageInfo.from_api_response` applied to the local metadata,
push_service.py lines 130-140).  Version numbers are the Confluence version
counters, natural numbers with pydantic default 0. -/
structure PageMeta where
  id : Nat
  title : String
  versionNumber : Nat
  bodyStorage : String
  deriving Repr, DecidableEq

/-- Payload of `get_page_by_id(id, expand="body.storage,version")` as read
by `_get_server_content`: the chain `.get("body", \x7b\x7d).get("storage",
\x7b\x7d).get("value", "")` yields the stored value when the field chain is
present and the empty string otherwise. -/
structure ContentPayload where
  bodyStorageValue : Option String
  deriving Repr, DecidableEq

/-- The `.get("body", ...).get("storage", ...).get("value", "")` extraction
of `_get_server_content` (push_service.py line 236). -/
def extractServerContent (p : ContentPayload) : String :=
  p.bodyStorageValue.getD ""

/-- The `version` object of a server payload: an optional `number` field. -/
structure VersionField where
  number : Option Nat
  deriving Repr, DecidableEq

/-- Payload of `get_page_by_id(id, expand="version")` as read by
`_check_version_conflict`: an optional `version` object. -/
structure VersionPayload where
  version : Option VersionField
  deriving Repr, DecidableEq

/-- The defaulting chain `server_response.get("version", \x7b\x7d).get("number", 0)`
of `_check_version_conflict` (push_service.py line 351): a missing
`version` object or a missing `number` field yields 0. -/
def serverVersionNumber (p : VersionPayload) : Nat :=
  match p.version with
  | none => 0
  | some f => f.number.getD 0

/-- Outcomes of the remote calls a single `_push_page_at_path` invocation
can make.  An `Except.error` value models the call raising an exception. -/
structure ServerBehavior where
  contentFetch : Except String ContentPayload
  versionFetch : Except String VersionPayload
  updateOutcome : Except String Unit

/-- Embedding of `_get_server_content` (push_service.py lines 217-246): fetch the live
content and format it with the external XML formatter `fmt`; on any
exception fall back to the stored `body_storage` of the local metadata. -/
def getServerContent (fmt : String → String) (pageInfo : PageMeta)
    (fetch : Except String ContentPayload) : String :=
  match fetch with
  | .ok p => fmt (extractServerContent p)
  | .error _ => pageInfo.bodyStorage

/-- Python's `str.strip()` with no argument: remove whitespace characters
from both ends of the string. -/
def pyStrip (s : String) : String :=
  ⟨((s.data.dropWhile Char.isWhitespace).reverse.dropWhile Char.isWhitespace).reverse⟩

/-- Embedding of `_has_content_changed_with_server` (push_service.py lines 248-266):
compare the contents after stripping surrounding whitespace from both. -/
def hasContentChangedWithServer (localContent serverContent : String) : Bool :=
  pyStrip localContent != pyStrip serverContent

/-- Embedding of `_check_version_conflict` (push_service.py lines 335-368): fetch the
server version; report a conflict string exactly when it is strictly
greater than the locally recorded version; any exception during the fetch
is caught and yields no conflict. -/
def checkVersionConflict (pageInfo : PageMeta)
    (versionFetch : Except String VersionPayload) : Option String :=
  match versionFetch with
  | .error _ => none
  | .ok p =>
      let serverVersion := serverVersionNumber p
      if serverVersion > pageInfo.versionNumber then
        some ("Conflict: " ++ pageInfo.title ++ " - local version " ++
          toString pageInfo.versionNumber ++ ", server version " ++
          toString serverVersion)
      else none

/-- One file inside a page's `attachments` directory.  `suffixIsJson`
records whether `Path(name).suffix == ".json"` (the filter of
`_push_attachments`); `size` is `stat().st_size`; for a metadata JSON file
`storedFileSize` is its parsed `extensions.fileSize` field when present
(`_should_push_attachment` defaults a missing field to 0). -/
structure AttDirFile where
  name : String
  suffixIsJson : Bool
  size : Nat := 0
  storedFileSize : Option Nat := none
  deriving Repr, DecidableEq

/-- A local page directory as read by `_push_page_at_path`: the contents of
`page.xml` and the parsed `page.json` when those files exist, and the file
listing of the `attachments` subdirectory when it exists. -/
structure PageDir where
  path : String
  xml : Option String
  json : Option PageMeta
  attachmentsDir : Option (List AttDirFile)

/-- Constructor flags of `PushService.__init__` (defaults per the source). -/
structure PushConfig where
  dryRun : Bool := false
  force : Bool := false
  interactive : Bool := true
  deriving Repr, DecidableEq

/-- Observable side effects of one `_push_page_at_path` invocation beyond
the result counters: calls of `client.update_page`, re-pulls performed by
`_refresh_local_page`, attachment files listed by `_push_attachments` and
attachment uploads performed through `client.attach_file`. -/
structure PushEvents where
  updateCalls : Nat := 0
  refreshes : Nat := 0
  examinedAttachments : List String := []
  uploadedAttachments : List String := []
  deriving Repr, DecidableEq

/-- Outcome of one `_push_page_at_path` invocation: the updated result, the
observable events, and whether the run was aborted (`SystemExit` raised on
the interactive response "q"). -/
structure PushStep where
  result : PushResult
  events : PushEvents
  aborted : Bool
  deriving Repr, DecidableEq

/-- Embedding of `_should_push_attachment` (push_service.py lines 433-459): push when no
metadata file exists, or when the current file size differs from the
recorded `extensions.fileSize` (missing field defaulting to 0). -/
def shouldPushAttachment (metaFile : Option AttDirFile) (currentSize : Nat) : Bool :=
  match metaFile with
  | none => true
  | some g => currentSize != g.storedFileSize.getD 0

/-- Loop body of `_push_attachments` for one non-JSON attachment file:
look up the sibling `<name>.json` metadata file among the directory's
files, upload (outside dry-run mode) when `_should_push_attachment` says
so, otherwise count the attachment as skipped. -/
def pushAttachmentStep (cfg : PushConfig) (files : List AttDirFile)
    (acc : PushResult × PushEvents) (f : AttDirFile) : PushResult × PushEvents :=
  let metaFile := files.find? (fun g => g.name == f.name ++ ".json")
  if shouldPushAttachment metaFile f.size then
    if cfg.dryRun then acc
    else
      ({ acc.1 with attachments_uploaded := acc.1.attachments_uploaded + 1 },
       { acc.2 with uploadedAttachments := acc.2.uploadedAttachments ++ [f.name] })
  else
    ({ acc.1 with attachments_skipped := acc.1.attachments_skipped + 1 }, acc.2)

/-- Embedding of `_push_attachments` (push_service.py lines 394-431): if the
`attachments` directory exists, list it, keep the files whose suffix is not
`.json`, and run `pushAttachmentStep` over them. -/
def pushAttachments (cfg : PushConfig) (attachmentsDir : Option (List AttDirFile))
    (res : PushResult) (ev : PushEvents) : PushResult × PushEvents :=
  match attachmentsDir with
  | none => (res, ev)
  | some files =>
      let ev1 := { ev with
        examinedAttachments := ev.examinedAttachments ++ files.map (fun f => f.name) }
      let attachmentFiles := files.filter (fun f => !f.suffixIsJson)
      attachmentFiles.foldl (pushAttachmentStep cfg files) (res, ev1)

/-- Embedding of `_push_page_at_path` (push_service.py lines 112-215).  The directory is
silently skipped when `page.xml` or `page.json` is missing.  Otherwise:
fetch the server content; skip (counted) when the trimmed contents agree;
check the version conflict and, unless forced, record it and stop; in
dry-run mode only show the diff and fall through to (dry) attachment
handling; otherwise ask for confirmation when interactive ("q" aborts the
run, "n" counts a skip), call `update_page` (an exception there is caught
at page level and recorded as one error), count the update, re-pull the
page, and finally push the attachments. -/
def pushPageAtPath (cfg : PushConfig) (srv : ServerBehavior) (fmt : String → String)
    (inputResponse : String) (dir : PageDir) (res : PushResult) : PushStep :=
  match dir.xml, dir.json with
  | some localContent, some pageInfo =>
      let serverContent := getServerContent fmt pageInfo srv.contentFetch
      if !hasContentChangedWithServer localContent serverContent then
        { result := { res with pages_skipped := res.pages_skipped + 1 },
          events := {}, aborted := false }
      else
        let conflict := checkVersionConflict pageInfo srv.versionFetch
        if conflict.isSome && !cfg.force then
          { result := { res with conflicts := res.conflicts ++ conflict.toList },
            events := {}, aborted := false }
        else if cfg.dryRun then
          let re := pushAttachments cfg dir.attachmentsDir res {}
          { result := re.1, events := re.2, aborted := false }
        else
          let response := (pyStrip inputResponse).toLower
          if cfg.interactive && response == "q" then
            { result := res, events := {}, aborted := true }
          else if cfg.interactive && response == "n" then
            { result := { res with pages_skipped := res.pages_skipped + 1 },
              events := {}, aborted := false }
          else
            match srv.updateOutcome with
            | .error e =>
                { result := { res with
                    errors := res.errors ++ ["Failed to push " ++ dir.path ++ ": " ++ e] },
                  events := { updateCalls := 1 }, aborted := false }
            | .ok _ =>
                let res1 := { res with pages_updated := res.pages_updated + 1 }
                let re := pushAttachments cfg dir.attachmentsDir res1
                  { updateCalls := 1, refreshes := 1 }
                { result := re.1, events := re.2, aborted := false }

  | _, _ => { result := res, events := {}, aborted := false }

/-! ## Local page discovery (push_service.py lines 477-528) -/

/-- A directory of the local mirror: the names of the plain files it holds
directly and its named subdirectories. -/
inductive FsDir where
  | mk : List String → List (String × FsDir) → FsDir

/-- The plain files directly inside a directory. -/
def FsDir.files : FsDir → List String
  | .mk fs _ => fs

/-- The named subdirectories of a directory. -/
def FsDir.subdirs : FsDir → List (String × FsDir)
  | .mk _ ds => ds

mutual

/-- Embedding of `_find_child_pages` (push_service.py lines 477-500), used by
`push_page(recursive=True)`: for each subdirectory not named `attachments`,
if it contains `page.xml` add it and recurse into it; a subdirectory
without `page.xml` contributes nothing and is not entered.  Paths are
returned relative to the argument directory as segment lists. -/
def findChildPages : FsDir → List (List String)
  | .mk _ subs => findChildPagesList subs

/-- Loop body of `_find_child_pages` over the subdirectory listing. -/
def findChildPagesList : List (String × FsDir) → List (List String)
  | [] => []
  | (n, d) :: rest =>
      (if n != "attachments" && d.files.contains "page.xml" then
        [n] :: (findChildPages d).map (fun p => n :: p)
      else []) ++ findChildPagesList rest

end

mutual

/-- Embedding of `_find_all_pages` and `find_pages_recursive` (push_service.py lines
502-528), used by `push_space`: for each subdirectory, add it when it
contains `page.xml`, and always search it further unless it is named
`attachments`. -/
def findAllPages : FsDir → List (List String)
  | .mk _ subs => findAllPagesList subs

/-- Loop body of `find_pages_recursive` over the subdirectory listing. -/
def findAllPagesList : List (String × FsDir) → List (List String)
  | [] => []
  | (n, d) :: rest =>
      (if d.files.contains "page.xml" then [[n]] else []) ++
      (if n != "attachments" then (findAllPages d).map (fun p => n :: p) else []) ++
      findAllPagesList rest

end

/-! ## Diff engine (diff_service.py lines 107-195) -/

/-- Outcome of the `subprocess.run` invocation of the external `diff`
command in `_run_diff`: either it completed with an exit code and captured
output, or it raised one of the handled exception classes. -/
inductive DiffRunOutcome where
  | completed : Int → String → String → DiffRunOutcome
  | timedOut : DiffRunOutcome
  | commandNotFound : String → DiffRunOutcome
  | otherFailure : String → DiffRunOutcome
  deriving Repr, DecidableEq

/-- Observable side effects of `_run_diff` beyond the result record:
whether the pager subprocess was started, and whether the diff text was
printed directly after a pager failure. -/
structure DiffEvents where
  pagerInvoked : Bool := false
  printedDirectly : Bool := false
  deriving Repr, DecidableEq

/-- Embedding of `_run_diff` (diff_service.py lines 107-195): an exit code above 1
records one error and returns; empty diff output clears the difference
flag; non-empty output sets it and streams the text through the pager
subprocess, printing directly when the pager exits non-zero; each handled
exception class records one distinctive error. -/
def runDiff (outcome : DiffRunOutcome) (pagerReturncode : Int)
    (res : DiffResult) : DiffResult × DiffEvents :=
  match outcome with
  | .completed returncode stdout stderr =>
      if returncode > 1 then
        ({ res with errors := res.errors ++ ["Diff command failed: " ++ stderr] }, {})
      else if stdout == "" then
        ({ res with has_differences := false }, {})
      else
        let res1 := { res with has_differences := true }
        if pagerReturncode != 0 then
          (res1, { pagerInvoked := true, printedDirectly := true })
        else
          (res1, { pagerInvoked := true })
  | .timedOut =>
      ({ res with errors := res.errors ++ ["Diff command timed out"] }, {})
  | .commandNotFound filename =>
      ({ res with errors := res.errors ++ ["Command not found: " ++ filename] }, {})
  | .otherFailure msg =>
      ({ res with errors := res.errors ++ ["Error running diff: " ++ msg] }, {})

/-! ## Pull engine

`pull_service.py` is not part of the shipped sources; the definitions in
this section are modelled from the specification (spec.md sections 4.1-4.3)
and are checked against the expectations recorded in
`tests/test_pull_service.py`. -/

/-- One response of the paged descendant search endpoint: the returned ids
and the optional continuation reference (the tests mock this as the
presence of a `next` entry under the response's links). -/
structure SearchResponse where
  results : List Nat
  nextLink : Option String
  deriving Repr, DecidableEq

/-- Modelled from the spec: `fetchDescendantIds` of the remote tree walker
(spec.md section 4.1, pull_service.py missing from the sources) must
repeatedly issue the search call, accumulate result ids, and continue
exactly while the response carries a continuation reference.  The argument
list is the stream of responses the server would return to the successive
calls. -/
def getAllDescendantIds : List SearchResponse → List Nat
  | [] => []
  | r :: rs =>
      r.results ++ (match r.nextLink with
        | some _ => getAllDescendantIds rs
        | none => [])

/-- The responses actually consumed by the pagination loop of
`getAllDescendantIds`: every response up to and including the first one
without a continuation reference. -/
def consumedResponses : List SearchResponse → List SearchResponse
  | [] => []
  | r :: rs =>
      r :: (match r.nextLink with
        | some _ => consumedResponses rs
        | none => [])

/-- A remote page node as the pull engine sees it (spec.md section 3). -/
structure RemotePage where
  id : Nat
  title : String
  spaceKey : String
  body : String
  version : Nat
  ancestors : List Nat
  deriving Repr, DecidableEq

/-- A remote attachment as the pull engine sees it (spec.md section 3). -/
structure RemoteAttachment where
  title : String
  fileSize : Nat
  downloadLink : String
  deriving Repr, DecidableEq

/-- Local mirror state at one page's target path: the version recorded in
an existing metadata document, if any, and the byte sizes recorded in the
existing per-attachment metadata files, keyed by attachment name. -/
structure MirrorPageState where
  storedVersion : Option Nat
  storedAttachmentSizes : List (String × Nat)
  deriving Repr, DecidableEq

/-- Modelled from the spec: `isAttachmentUpToDate` (spec.md section 4.2,
pull_service.py missing from the sources): true exactly when a metadata
record exists and its recorded size equals the current remote size. -/
def isAttachmentUpToDate (existingMetadataSize : Option Nat)
    (currentRemoteSize : Nat) : Bool :=
  match existingMetadataSize with
  | none => false
  | some s => s == currentRemoteSize

/-- The environment of one pull invocation: the remote client's answers
(page fetches, the descendant search response stream, attachment listings)
and the pre-existing local mirror state, keyed by page id (each page has
its own target path). -/
structure PullEnv where
  fetchPage : Nat → Except String RemotePage
  descendantResponses : List SearchResponse
  attachments : Nat → List RemoteAttachment
  existing : Nat → MirrorPageState

/-- Modelled from the spec: attachment handling of `pullPage` (spec.md
section 4.3, pull_service.py missing from the sources): each attachment
that is up to date is counted as skipped, every other one is downloaded
and counted. -/
def pullAttachmentStep (st : MirrorPageState) (r : PullResult)
    (att : RemoteAttachment) : PullResult :=
  if isAttachmentUpToDate (st.storedAttachmentSizes.lookup att.title) att.fileSize then
    { r with attachments_skipped := r.attachments_skipped + 1 }
  else
    { r with attachments_downloaded := r.attachments_downloaded + 1 }

/-- Modelled from the spec: fold `pullAttachmentStep` over the attachment
listing of one page (spec.md section 4.3). -/
def pullAttachmentsFor (st : MirrorPageState) (atts : List RemoteAttachment)
    (res : PullResult) : PullResult :=
  atts.foldl (pullAttachmentStep st) res

/-- Modelled from the spec: the per-page step of the pull engine (spec.md
section 4.3, pull_service.py missing from the sources): fetch the node (a
failure is recorded as one error and ends the step); if a local metadata
document exists and records the remote version the page is counted as
skipped, otherwise it is written and counted as downloaded; in either case
the attachments are then checked independently of the page skip status. -/
def pullOnePage (env : PullEnv) (pid : Nat) (res : PullResult) : PullResult :=
  match env.fetchPage pid with
  | .error e => { res with errors := res.errors ++ [e] }
  | .ok page =>
      let st := env.existing pid
      let res1 :=
        if st.storedVersion == some page.version then
          { res with pages_skipped := res.pages_skipped + 1 }
        else
          { res with pages_downloaded := res.pages_downloaded + 1 }
      pullAttachmentsFor st (env.attachments pid) res1

/-- Modelled from the spec: `pullPage` (spec.md section 4.3,
pull_service.py missing from the sources): pull the requested page and,
when recursive, obtain the descendant ids through the paginated search and
pull each descendant as an independent non-recursive page in one flat
pass. -/
def pullPage (env : PullEnv) (pid : Nat) (recursive : Bool) : PullResult :=
  let res := pullOnePage env pid {}
  if recursive then
    (getAllDescendantIds env.descendantResponses).foldl
      (fun r d => pullOnePage env d r) res
  else res

/-! ## Content artifact file names (claim C1) -/

/-- Content document file name the push engine reads
(push_service.py line 120). -/
def pushContentFileName : String := "page.xml"

/-- Metadata document file name the push engine reads
(push_service.py line 121). -/
def pushMetadataFileName : String := "page.json"

/-- Modelled from the spec: the two per-page artifacts the pull engine
writes into a page directory (spec.md section 6 authoritative layout;
pull_service.py missing from the sources). -/
def specPulledPageFiles : List String := ["page.xml", "page.json"]

/-- Content document file name that the repository's own pull tests assert
the pull engine writes (tests/test_pull_service.py lines 63 and 100). -/
def testPulledContentFileName : String := "page.confluence"

/-- Page-directory file listing after a pull as asserted by the
repository's pull tests (tests/test_pull_service.py lines 63-64). -/
def testPulledPageFiles : List String := ["page.confluence", "page.json"]

/-- The eligibility guard of `_push_page_at_path` (push_service.py lines
120-125) expressed on a directory's file-name listing: both `page.xml` and
`page.json` must exist. -/
def pageDirEligible (names : List String) : Bool :=
  names.contains pushContentFileName && names.contains pushMetadataFileName

/-! ## Helper lemmas -/

/-- One attachment step never touches the page counters, the conflict or
error lists, or the update/refresh call counts. -/
theorem pushAttachmentStep_preserves (cfg : PushConfig) (files : List AttDirFile)
    (acc : PushResult × PushEvents) (f : AttDirFile) :
    (pushAttachmentStep cfg files acc f).1.pages_updated = acc.1.pages_updated ∧
    (pushAttachmentStep cfg files acc f).1.pages_skipped = acc.1.pages_skipped ∧
    (pushAttachmentStep cfg files acc f).1.conflicts = acc.1.conflicts ∧
    (pushAttachmentStep cfg files acc f).1.errors = acc.1.errors ∧
    (pushAttachmentStep cfg files acc f).2.updateCalls = acc.2.updateCalls ∧
    (pushAttachmentStep cfg files acc f).2.refreshes = acc.2.refreshes := by
  simp only [pushAttachmentStep]
  split
  · split
    · exact ⟨rfl, rfl, rfl, rfl, rfl, rfl⟩
    · exact ⟨rfl, rfl, rfl, rfl, rfl, rfl⟩
  · exact ⟨rfl, rfl, rfl, rfl, rfl, rfl⟩

/-- The attachment loop never touches the page counters, the conflict or
error lists, or the update/refresh call counts. -/
theorem pushAttachmentsFold_preserves (cfg : PushConfig) (files : List AttDirFile) :
    ∀ (l : List AttDirFile) (acc : PushResult × PushEvents),
    (l.foldl (pushAttachmentStep cfg files) acc).1.pages_updated = acc.1.pages_updated ∧
    (l.foldl (pushAttachmentStep cfg files) acc).1.pages_skipped = acc.1.pages_skipped ∧
    (l.foldl (pushAttachmentStep cfg files) acc).1.conflicts = acc.1.conflicts ∧
    (l.foldl (pushAttachmentStep cfg files) acc).1.errors = acc.1.errors ∧
    (l.foldl (pushAttachmentStep cfg files) acc).2.updateCalls = acc.2.updateCalls ∧
    (l.foldl (pushAttachmentStep cfg files) acc).2.refreshes = acc.2.refreshes := by
  intro l
  induction l with
  | nil => intro acc; exact ⟨rfl, rfl, rfl, rfl, rfl, rfl⟩
  | cons f fs ih =>
      intro acc
      rw [List.foldl_cons]
      obtain ⟨s1, s2, s3, s4, s5, s6⟩ := pushAttachmentStep_preserves cfg files acc f
      obtain ⟨i1, i2, i3, i4, i5, i6⟩ := ih (pushAttachmentStep cfg files acc f)
      exact ⟨i1.trans s1, i2.trans s2, i3.trans s3, i4.trans s4, i5.trans s5, i6.trans s6⟩

/-- The embedded `_push_attachments` never touches the page counters, the conflict or
error lists, or the update/refresh call counts of its inputs. -/
theorem pushAttachments_preserves (cfg : PushConfig) (ad : Option (List AttDirFile))
    (res : PushResult) (ev : PushEvents) :
    (pushAttachments cfg ad res ev).1.pages_updated = res.pages_updated ∧
    (pushAttachments cfg ad res ev).1.pages_skipped = res.pages_skipped ∧
    (pushAttachments cfg ad res ev).1.conflicts = res.conflicts ∧
    (pushAttachments cfg ad res ev).1.errors = res.errors ∧
    (pushAttachments cfg ad res ev).2.updateCalls = ev.updateCalls ∧
    (pushAttachments cfg ad res ev).2.refreshes = ev.refreshes := by
  match ad with
  | none => exact ⟨rfl, rfl, rfl, rfl, rfl, rfl⟩
  | some files =>
      simp only [pushAttachments]
      exact pushAttachmentsFold_preserves cfg files _ _

/-- On a page directory whose trimmed local content equals the trimmed
server content, `_push_page_at_path` only counts one skip. -/
theorem pushPageAtPath_skip (cfg : PushConfig) (srv : ServerBehavior)
    (fmt : String → String) (inp path lc : String) (pi : PageMeta)
    (ad : Option (List AttDirFile)) (res : PushResult)
    (hch : hasContentChangedWithServer lc (getServerContent fmt pi srv.contentFetch) = false) :
    pushPageAtPath cfg srv fmt inp ⟨path, some lc, some pi, ad⟩ res =
      { result := { res with pages_skipped := res.pages_skipped + 1 },
        events := {}, aborted := false } := by
  simp only [pushPageAtPath, hch]
  rfl

/-- On a changed page with a detected conflict and no force flag,
`_push_page_at_path` only records the conflict. -/
theorem pushPageAtPath_conflict (cfg : PushConfig) (srv : ServerBehavior)
    (fmt : String → String) (inp path lc : String) (pi : PageMeta)
    (ad : Option (List AttDirFile)) (res : PushResult)
    (hch : hasContentChangedWithServer lc (getServerContent fmt pi srv.contentFetch) = true)
    (hc : (checkVersionConflict pi srv.versionFetch).isSome = true)
    (hf : cfg.force = false) :
    pushPageAtPath cfg srv fmt inp ⟨path, some lc, some pi, ad⟩ res =
      { result := { res with
          conflicts := res.conflicts ++ (checkVersionConflict pi srv.versionFetch).toList },
        events := {}, aborted := false } := by
  simp only [pushPageAtPath, hch, hc, hf]
  rfl

/-- On a changed page where the conflict gate does not fire, in
non-dry-run non-interactive mode with a successful update call,
`_push_page_at_path` counts the update, re-pulls the page and proceeds to
the attachments. -/
theorem pushPageAtPath_update (cfg : PushConfig) (srv : ServerBehavior)
    (fmt : String → String) (inp path lc : String) (pi : PageMeta)
    (ad : Option (List AttDirFile)) (res : PushResult)
    (hdry : cfg.dryRun = false) (hint : cfg.interactive = false)
    (hch : hasContentChangedWithServer lc (getServerContent fmt pi srv.contentFetch) = true)
    (hcf : ((checkVersionConflict pi srv.versionFetch).isSome && !cfg.force) = false)
    (hupd : srv.updateOutcome = .ok ()) :
    pushPageAtPath cfg srv fmt inp ⟨path, some lc, some pi, ad⟩ res =
      (fun re => { result := re.1, events := re.2, aborted := false })
        (pushAttachments cfg ad { res with pages_updated := res.pages_updated + 1 }
          { updateCalls := 1, refreshes := 1 }) := by
  simp only [pushPageAtPath, hch, hcf, hdry, hint, hupd]
  rfl

/-- One pull attachment step never touches the page counters or errors. -/
theorem pullAttachmentStep_preserves (st : MirrorPageState) (r : PullResult)
    (att : RemoteAttachment) :
    (pullAttachmentStep st r att).pages_downloaded = r.pages_downloaded ∧
    (pullAttachmentStep st r att).pages_skipped = r.pages_skipped ∧
    (pullAttachmentStep st r att).errors = r.errors := by
  simp only [pullAttachmentStep]
  split
  · exact ⟨rfl, rfl, rfl⟩
  · exact ⟨rfl, rfl, rfl⟩

/-- Attachment handling of the pull engine never touches the page counters
or the error list. -/
theorem pullAttachmentsFor_preserves (st : MirrorPageState) (atts : List RemoteAttachment) :
    ∀ res : PullResult,
    (pullAttachmentsFor st atts res).pages_downloaded = res.pages_downloaded ∧
    (pullAttachmentsFor st atts res).pages_skipped = res.pages_skipped ∧
    (pullAttachmentsFor st atts res).errors = res.errors := by
  induction atts with
  | nil => intro res; exact ⟨rfl, rfl, rfl⟩
  | cons a as ih =>
      intro res
      obtain ⟨s1, s2, s3⟩ := pullAttachmentStep_preserves st res a
      obtain ⟨i1, i2, i3⟩ := ih (pullAttachmentStep st res a)
      exact ⟨i1.trans s1, i2.trans s2, i3.trans s3⟩

/-- Pulling a page that is absent from the local mirror (no stored
metadata version) downloads it: the downloaded counter grows by one and
the skip counter and errors are unchanged. -/
theorem pullOnePage_fresh (env : PullEnv) (pid : Nat) (res : PullResult)
    (p : RemotePage) (hf : env.fetchPage pid = .ok p)
    (hfresh : (env.existing pid).storedVersion = none) :
    (pullOnePage env pid res).pages_downloaded = res.pages_downloaded + 1 ∧
    (pullOnePage env pid res).pages_skipped = res.pages_skipped ∧
    (pullOnePage env pid res).errors = res.errors := by
  simp only [pullOnePage, hf, hfresh]
  obtain ⟨h1, h2, h3⟩ := pullAttachmentsFor_preserves (env.existing pid)
    (env.attachments pid) { res with pages_downloaded := res.pages_downloaded + 1 }
  simp only [Option.none_beq_some] at *
  exact ⟨h1, h2, h3⟩

/-- The embedded `_check_version_conflict` on a successful version fetch reports a
conflict exactly when the server version strictly exceeds the local one. -/
theorem checkVersionConflict_isSome_iff (pi : PageMeta) (p : VersionPayload) :
    (checkVersionConflict pi (.ok p)).isSome = true ↔
      serverVersionNumber p > pi.versionNumber := by
  simp only [checkVersionConflict]
  split
  · next h => simp only [Option.isSome_some, true_iff]; exact h
  · next h => simp only [Option.isSome_none, Bool.false_eq_true, false_iff]; exact h

/-- The predicate `hasContentChangedWithServer` is false exactly on equal stripped
contents. -/
theorem hasContentChangedWithServer_eq_false_iff (l s : String) :
    hasContentChangedWithServer l s = false ↔ pyStrip l = pyStrip s := by
  simp [hasContentChangedWithServer]

/-- The descendant-id accumulation equals the concatenation of the result
lists of exactly the responses consumed by the pagination loop. -/
theorem getAllDescendantIds_eq_flatten (rs : List SearchResponse) :
    getAllDescendantIds rs = ((consumedResponses rs).map SearchResponse.results).flatten := by
  induction rs with
  | nil => rfl
  | cons r rest ih =>
      simp only [getAllDescendantIds, consumedResponses]
      cases h : r.nextLink with
      | none => simp
      | some l => simp [ih]

/-- With interactive confirmation disabled, a changed page never adds to
the skip counter, whatever the conflict, dry-run and update outcomes. -/
theorem pushPageAtPath_changed_no_skip (cfg : PushConfig) (srv : ServerBehavior)
    (fmt : String → String) (inp path lc : String) (pi : PageMeta)
    (ad : Option (List AttDirFile)) (res : PushResult)
    (hint : cfg.interactive = false)
    (hch : hasContentChangedWithServer lc (getServerContent fmt pi srv.contentFetch) = true) :
    (pushPageAtPath cfg srv fmt inp ⟨path, some lc, some pi, ad⟩ res).result.pages_skipped =
      res.pages_skipped := by
  simp only [pushPageAtPath, hch, hint, Bool.false_and, Bool.not_true, Bool.false_eq_true,
    if_false]
  split
  · rfl
  · split
    · exact (pushAttachments_preserves cfg ad res {}).2.1
    · split
      · rfl
      · exact (pushAttachments_preserves cfg ad
          { res with pages_updated := res.pages_updated + 1 } _).2.1

/-! ## Claim theorems -/

/-- C1: the pull engine is supposed to write the canonical content
document under the name `page.xml` beside `page.json`, the very file name
the push engine reads back.  The spec-modelled pull layout does satisfy
the push engine's eligibility guard, but the repository's own pull tests
assert the content document is written as `page.confluence`, a different
name; a directory with only `page.confluence` and `page.json` fails the
guard and `_push_page_at_path` returns it untouched, so a pull followed by
a push would not operate on the same content artifact. -/
theorem pull_push_artifact_name_mismatch :
    pageDirEligible specPulledPageFiles = true ∧
    testPulledContentFileName ≠ pushContentFileName ∧
    testPulledContentFileName ∉ specPulledPageFiles ∧
    pageDirEligible testPulledPageFiles = false ∧
    pushPageAtPath {} ⟨.error "fetch failed", .error "fetch failed", .ok ()⟩ id ""
        ⟨"SPACE/Test Page", none, some ⟨12345, "Test Page", 1, "<p>Content</p>"⟩, none⟩ {} =
      { result := {}, events := {}, aborted := false } :=
  ⟨by decide, by decide, by decide, by decide, rfl⟩

/-- C10: a push-side version conflict is reported exactly when the server
version strictly exceeds the locally recorded one; equal versions never
conflict; and a response without a version number defaults to version 0,
which can never exceed a natural local version. -/
theorem conflict_strictly_greater_and_missing_version (pi : PageMeta) (p : VersionPayload) :
    ((checkVersionConflict pi (.ok p)).isSome = true ↔
      serverVersionNumber p > pi.versionNumber) ∧
    (serverVersionNumber p = pi.versionNumber → checkVersionConflict pi (.ok p) = none) ∧
    (p.version = none → serverVersionNumber p = 0 ∧ checkVersionConflict pi (.ok p) = none) := by
  refine ⟨checkVersionConflict_isSome_iff pi p, ?_, ?_⟩
  · intro h
    refine Option.not_isSome_iff_eq_none.mp (fun hs => ?_)
    have := (checkVersionConflict_isSome_iff pi p).mp hs
    omega
  · intro h
    have h0 : serverVersionNumber p = 0 := by simp [serverVersionNumber, h]
    refine ⟨h0, Option.not_isSome_iff_eq_none.mp (fun hs => ?_)⟩
    have := (checkVersionConflict_isSome_iff pi p).mp hs
    omega

/-- Witness for C10 at a concrete page (local version 1) and a server
response that carries no version object. -/
theorem conflict_strictly_greater_and_missing_version_witness :
    ((checkVersionConflict ⟨12345, "Test Page", 1, ""⟩ (.ok ⟨none⟩)).isSome = true ↔
      serverVersionNumber ⟨none⟩ > (⟨12345, "Test Page", 1, ""⟩ : PageMeta).versionNumber) ∧
    (serverVersionNumber ⟨none⟩ = (⟨12345, "Test Page", 1, ""⟩ : PageMeta).versionNumber →
      checkVersionConflict ⟨12345, "Test Page", 1, ""⟩ (.ok ⟨none⟩) = none) ∧
    ((⟨none⟩ : VersionPayload).version = none →
      serverVersionNumber ⟨none⟩ = 0 ∧
      checkVersionConflict ⟨12345, "Test Page", 1, ""⟩ (.ok ⟨none⟩) = none) :=
  conflict_strictly_greater_and_missing_version ⟨12345, "Test Page", 1, ""⟩ ⟨none⟩

/-- C5 fails as stated for `push_page(recursive=True)`: in the concrete
tree below the directory `Section` has no `page.xml`, and the eligible page
directory `Section/Leaf` nested under it is not found by
`_find_child_pages`, while `_find_all_pages` (the `push_space` walk) does
find it. -/
theorem find_child_pages_counterexample :
    findChildPages (.mk [] [("Section",
      .mk ["notes.txt"] [("Leaf", .mk ["page.xml", "page.json"] [])])]) = [] ∧
    findAllPages (.mk [] [("Section",
      .mk ["notes.txt"] [("Leaf", .mk ["page.xml", "page.json"] [])])]) =
      [["Section", "Leaf"]] :=
  ⟨by decide, by decide⟩

/-- C5 (amended): a directory missing `page.xml` or `page.json` is itself
skipped by `_push_page_at_path` without recording an error.  `push_space`
(`_find_all_pages`) still searches the subtree of a directory without
`page.xml` (except under `attachments`), so nested eligible directories
are found there; but `push_page(recursive=True)` (`_find_child_pages`)
drops the whole subtree of a directory without `page.xml`. -/
theorem missing_artifact_directory_handling (n : String) (d : FsDir)
    (rest : List (String × FsDir)) (files : List String)
    (hxml : d.files.contains "page.xml" = false) (hn : n ≠ "attachments") :
    findChildPages (.mk files ((n, d) :: rest)) = findChildPages (.mk files rest) ∧
    findAllPages (.mk files ((n, d) :: rest)) =
      (findAllPages d).map (fun p => n :: p) ++ findAllPages (.mk files rest) ∧
    (∀ (cfg : PushConfig) (srv : ServerBehavior) (fmt : String → String)
        (inp path : String) (ad : Option (List AttDirFile)) (res : PushResult)
        (xml : Option String) (meta : Option PageMeta), xml = none ∨ meta = none →
      pushPageAtPath cfg srv fmt inp ⟨path, xml, meta, ad⟩ res =
        { result := res, events := {}, aborted := false }) := by
  refine ⟨?_, ?_, ?_⟩
  · simp only [findChildPages, findChildPagesList, hxml, Bool.and_false, if_false]
    rfl
  · have hb : (n != "attachments") = true := bne_iff_ne.mpr hn
    simp only [findAllPages, findAllPagesList, hxml, hb, Bool.false_eq_true, if_false, if_true]
    rfl
  · intro cfg srv fmt inp path ad res xml meta hmiss
    rcases hmiss with h | h
    · subst h
      cases meta with
      | none => rfl
      | some pi => rfl
    · subst h
      cases xml with
      | none => rfl
      | some lc => rfl

/-- Witness for C5 (amended) on the counterexample tree. -/
theorem missing_artifact_directory_handling_witness :
    (findChildPages (.mk [] [("Section",
        .mk ["notes.txt"] [("Leaf", .mk ["page.xml", "page.json"] [])]), ("Other",
        .mk ["page.xml", "page.json"] [])]) =
      findChildPages (.mk [] [("Other", .mk ["page.xml", "page.json"] [])]) ∧
    findAllPages (.mk [] [("Section",
        .mk ["notes.txt"] [("Leaf", .mk ["page.xml", "page.json"] [])]), ("Other",
        .mk ["page.xml", "page.json"] [])]) =
      (findAllPages (.mk ["notes.txt"] [("Leaf", .mk ["page.xml", "page.json"] [])])).map
          (fun p => "Section" :: p) ++
        findAllPages (.mk [] [("Other", .mk ["page.xml", "page.json"] [])]) ∧
    (∀ (cfg : PushConfig) (srv : ServerBehavior) (fmt : String → String)
        (inp path : String) (ad : Option (List AttDirFile)) (res : PushResult)
        (xml : Option String) (meta : Option PageMeta), xml = none ∨ meta = none →
      pushPageAtPath cfg srv fmt inp ⟨path, xml, meta, ad⟩ res =
        { result := res, events := {}, aborted := false })) :=
  missing_artifact_directory_handling "Section"
    (.mk ["notes.txt"] [("Leaf", .mk ["page.xml", "page.json"] [])])
    [("Other", .mk ["page.xml", "page.json"] [])] [] (by decide) (by decide)

/-- C3: on a changed page whose server version strictly exceeds the local
one, a non-forced push records exactly one conflict, performs no update
and never invokes the remote update call; a forced push records no
conflict and updates the page exactly once. -/
theorem push_conflict_precedence (srv : ServerBehavior) (fmt : String → String)
    (inp path lc : String) (pi : PageMeta) (ad : Option (List AttDirFile))
    (res : PushResult) (p : VersionPayload)
    (hch : hasContentChangedWithServer lc (getServerContent fmt pi srv.contentFetch) = true)
    (hver : srv.versionFetch = .ok p)
    (hgt : serverVersionNumber p > pi.versionNumber)
    (hupd : srv.updateOutcome = .ok ()) :
    ((pushPageAtPath ⟨false, false, false⟩ srv fmt inp
        ⟨path, some lc, some pi, ad⟩ res).result.conflicts.length =
          res.conflicts.length + 1 ∧
      (pushPageAtPath ⟨false, false, false⟩ srv fmt inp
        ⟨path, some lc, some pi, ad⟩ res).result.pages_updated = res.pages_updated ∧
      (pushPageAtPath ⟨false, false, false⟩ srv fmt inp
        ⟨path, some lc, some pi, ad⟩ res).events.updateCalls = 0) ∧
    ((pushPageAtPath ⟨false, true, false⟩ srv fmt inp
        ⟨path, some lc, some pi, ad⟩ res).result.conflicts = res.conflicts ∧
      (pushPageAtPath ⟨false, true, false⟩ srv fmt inp
        ⟨path, some lc, some pi, ad⟩ res).result.pages_updated = res.pages_updated + 1 ∧
      (pushPageAtPath ⟨false, true, false⟩ srv fmt inp
        ⟨path, some lc, some pi, ad⟩ res).events.updateCalls = 1) := by
  have hc : (checkVersionConflict pi srv.versionFetch).isSome = true := by
    rw [hver]
    exact (checkVersionConflict_isSome_iff pi p).mpr hgt
  obtain ⟨c, hcEq⟩ := Option.isSome_iff_exists.mp hc
  constructor
  · rw [pushPageAtPath_conflict ⟨false, false, false⟩ srv fmt inp path lc pi ad res hch hc rfl]
    simp [hcEq]
  · have hcf : ((checkVersionConflict pi srv.versionFetch).isSome &&
        !(⟨false, true, false⟩ : PushConfig).force) = false := by
      simp
    rw [pushPageAtPath_update ⟨false, true, false⟩ srv fmt inp path lc pi ad res rfl rfl
      hch hcf hupd]
    obtain ⟨p1, p2, p3, p4, p5, p6⟩ := pushAttachments_preserves ⟨false, true, false⟩ ad
      { res with pages_updated := res.pages_updated + 1 } { updateCalls := 1, refreshes := 1 }
    exact ⟨p3, by rw [p1], p5⟩

/-- Witness for C3: local version 1, server version 3, changed content,
no attachments. -/
theorem push_conflict_precedence_witness :
    ((pushPageAtPath ⟨false, false, false⟩
        ⟨.ok ⟨some "<p>Original</p>"⟩, .ok ⟨some ⟨some 3⟩⟩, .ok ()⟩ id ""
        ⟨"Test Page", some "<p>Modified content</p>",
          some ⟨12345, "Test Page", 1, "<p>Original</p>"⟩, none⟩
        {}).result.conflicts.length = ({} : PushResult).conflicts.length + 1 ∧
      (pushPageAtPath ⟨false, false, false⟩
        ⟨.ok ⟨some "<p>Original</p>"⟩, .ok ⟨some ⟨some 3⟩⟩, .ok ()⟩ id ""
        ⟨"Test Page", some "<p>Modified content</p>",
          some ⟨12345, "Test Page", 1, "<p>Original</p>"⟩, none⟩
        {}).result.pages_updated = ({} : PushResult).pages_updated ∧
      (pushPageAtPath ⟨false, false, false⟩
        ⟨.ok ⟨some "<p>Original</p>"⟩, .ok ⟨some ⟨some 3⟩⟩, .ok ()⟩ id ""
        ⟨"Test Page", some "<p>Modified content</p>",
          some ⟨12345, "Test Page", 1, "<p>Original</p>"⟩, none⟩
        {}).events.updateCalls = 0) ∧
    ((pushPageAtPath ⟨false, true, false⟩
        ⟨.ok ⟨some "<p>Original</p>"⟩, .ok ⟨some ⟨some 3⟩⟩, .ok ()⟩ id ""
        ⟨"Test Page", some "<p>Modified content</p>",
          some ⟨12345, "Test Page", 1, "<p>Original</p>"⟩, none⟩
        {}).result.conflicts = ({} : PushResult).conflicts ∧
      (pushPageAtPath ⟨false, true, false⟩
        ⟨.ok ⟨some "<p>Original</p>"⟩, .ok ⟨some ⟨some 3⟩⟩, .ok ()⟩ id ""
        ⟨"Test Page", some "<p>Modified content</p>",
          some ⟨12345, "Test Page", 1, "<p>Original</p>"⟩, none⟩
        {}).result.pages_updated = ({} : PushResult).pages_updated + 1 ∧
      (pushPageAtPath ⟨false, true, false⟩
        ⟨.ok ⟨some "<p>Original</p>"⟩, .ok ⟨some ⟨some 3⟩⟩, .ok ()⟩ id ""
        ⟨"Test Page", some "<p>Modified content</p>",
          some ⟨12345, "Test Page", 1, "<p>Original</p>"⟩, none⟩
        {}).events.updateCalls = 1) :=
  push_conflict_precedence ⟨.ok ⟨some "<p>Original</p>"⟩, .ok ⟨some ⟨some 3⟩⟩, .ok ()⟩ id
    "" "Test Page" "<p>Modified content</p>" ⟨12345, "Test Page", 1, "<p>Original</p>"⟩
    none {} ⟨some ⟨some 3⟩⟩ (by decide) rfl (by decide) rfl

/-- C4: with interactive confirmation disabled, the push of an eligible
page directory counts a skip exactly when the local content equals the
fetched server content after stripping surrounding whitespace from both
sides (in which case the update call is never made); the decision is fully
characterized by the stripped-equality comparison, so the SHA-256 helper
`compute_content_hash` plays no part in it. -/
theorem push_change_detection_trim (cfg : PushConfig) (srv : ServerBehavior)
    (fmt : String → String) (inp path lc : String) (pi : PageMeta)
    (ad : Option (List AttDirFile)) (res : PushResult)
    (hint : cfg.interactive = false) :
    (pyStrip lc = pyStrip (getServerContent fmt pi srv.contentFetch) →
      (pushPageAtPath cfg srv fmt inp ⟨path, some lc, some pi, ad⟩ res).result =
        { res with pages_skipped := res.pages_skipped + 1 } ∧
      (pushPageAtPath cfg srv fmt inp ⟨path, some lc, some pi, ad⟩ res).events.updateCalls = 0) ∧
    (pyStrip lc ≠ pyStrip (getServerContent fmt pi srv.contentFetch) →
      (pushPageAtPath cfg srv fmt inp ⟨path, some lc, some pi, ad⟩ res).result.pages_skipped =
        res.pages_skipped) := by
  constructor
  · intro heq
    have hch : hasContentChangedWithServer lc (getServerContent fmt pi srv.contentFetch) = false :=
      (hasContentChangedWithServer_eq_false_iff _ _).mpr heq
    rw [pushPageAtPath_skip cfg srv fmt inp path lc pi ad res hch]
    exact ⟨rfl, rfl⟩
  · intro hne
    have hch : hasContentChangedWithServer lc (getServerContent fmt pi srv.contentFetch) = true := by
      cases h : hasContentChangedWithServer lc (getServerContent fmt pi srv.contentFetch) with
      | false => exact absurd ((hasContentChangedWithServer_eq_false_iff _ _).mp h) hne
      | true => rfl
    exact pushPageAtPath_changed_no_skip cfg srv fmt inp path lc pi ad res hint hch

/-- Witness for C4: a page whose local content differs from the server
content only by surrounding whitespace is skipped. -/
theorem push_change_detection_trim_witness :
    (pyStrip " <p>Content</p> " =
        pyStrip (getServerContent id ⟨12345, "Test Page", 1, ""⟩ (.ok ⟨some "<p>Content</p>"⟩)) →
      (pushPageAtPath ⟨false, false, false⟩
        ⟨.ok ⟨some "<p>Content</p>"⟩, .ok ⟨some ⟨some 1⟩⟩, .ok ()⟩ id ""
        ⟨"Test Page", some " <p>Content</p> ", some ⟨12345, "Test Page", 1, ""⟩, none⟩
        {}).result = { ({} : PushResult) with
          pages_skipped := ({} : PushResult).pages_skipped + 1 } ∧
      (pushPageAtPath ⟨false, false, false⟩
        ⟨.ok ⟨some "<p>Content</p>"⟩, .ok ⟨some ⟨some 1⟩⟩, .ok ()⟩ id ""
        ⟨"Test Page", some " <p>Content</p> ", some ⟨12345, "Test Page", 1, ""⟩, none⟩
        {}).events.updateCalls = 0) ∧
    (pyStrip " <p>Content</p> " ≠
        pyStrip (getServerContent id ⟨12345, "Test Page", 1, ""⟩ (.ok ⟨some "<p>Content</p>"⟩)) →
      (pushPageAtPath ⟨false, false, false⟩
        ⟨.ok ⟨some "<p>Content</p>"⟩, .ok ⟨some ⟨some 1⟩⟩, .ok ()⟩ id ""
        ⟨"Test Page", some " <p>Content</p> ", some ⟨12345, "Test Page", 1, ""⟩, none⟩
        {}).result.pages_skipped = ({} : PushResult).pages_skipped) :=
  push_change_detection_trim ⟨false, false, false⟩
    ⟨.ok ⟨some "<p>Content</p>"⟩, .ok ⟨some ⟨some 1⟩⟩, .ok ()⟩ id "" "Test Page"
    " <p>Content</p> " ⟨12345, "Test Page", 1, ""⟩ none {} rfl

/-- C7: when the version lookup of the conflict check raises, the check
reports no conflict, nothing is appended to the conflict or error lists
for it, and the push proceeds to invoke the update call. -/
theorem version_check_exception_proceeds (cfg : PushConfig) (srv : ServerBehavior)
    (fmt : String → String) (inp path lc : String) (pi : PageMeta)
    (ad : Option (List AttDirFile)) (res : PushResult) (e : String)
    (hdry : cfg.dryRun = false) (hint : cfg.interactive = false)
    (hver : srv.versionFetch = .error e)
    (hch : hasContentChangedWithServer lc (getServerContent fmt pi srv.contentFetch) = true)
    (hupd : srv.updateOutcome = .ok ()) :
    checkVersionConflict pi srv.versionFetch = none ∧
    (pushPageAtPath cfg srv fmt inp ⟨path, some lc, some pi, ad⟩ res).result.conflicts =
      res.conflicts ∧
    (pushPageAtPath cfg srv fmt inp ⟨path, some lc, some pi, ad⟩ res).result.errors =
      res.errors ∧
    (pushPageAtPath cfg srv fmt inp ⟨path, some lc, some pi, ad⟩ res).result.pages_updated =
      res.pages_updated + 1 ∧
    (pushPageAtPath cfg srv fmt inp ⟨path, some lc, some pi, ad⟩ res).events.updateCalls = 1 := by
  have hnone : checkVersionConflict pi srv.versionFetch = none := by
    rw [hver]; rfl
  have hcf : ((checkVersionConflict pi srv.versionFetch).isSome && !cfg.force) = false := by
    simp [hnone]
  rw [pushPageAtPath_update cfg srv fmt inp path lc pi ad res hdry hint hch hcf hupd]
  obtain ⟨p1, p2, p3, p4, p5, p6⟩ := pushAttachments_preserves cfg ad
    { res with pages_updated := res.pages_updated + 1 } { updateCalls := 1, refreshes := 1 }
  exact ⟨hnone, p3, p4, by rw [p1], p5⟩

/-- Witness for C7: the version fetch raises a network error and the
changed page is still updated once. -/
theorem version_check_exception_proceeds_witness :
    checkVersionConflict ⟨12345, "Test Page", 1, "<p>Original</p>"⟩
      (Except.error "Network error") = none ∧
    (pushPageAtPath ⟨false, false, false⟩
      ⟨.ok ⟨some "<p>Original</p>"⟩, .error "Network error", .ok ()⟩ id ""
      ⟨"Test Page", some "<p>Modified</p>",
        some ⟨12345, "Test Page", 1, "<p>Original</p>"⟩, none⟩
      {}).result.conflicts = ({} : PushResult).conflicts ∧
    (pushPageAtPath ⟨false, false, false⟩
      ⟨.ok ⟨some "<p>Original</p>"⟩, .error "Network error", .ok ()⟩ id ""
      ⟨"Test Page", some "<p>Modified</p>",
        some ⟨12345, "Test Page", 1, "<p>Original</p>"⟩, none⟩
      {}).result.errors = ({} : PushResult).errors ∧
    (pushPageAtPath ⟨false, false, false⟩
      ⟨.ok ⟨some "<p>Original</p>"⟩, .error "Network error", .ok ()⟩ id ""
      ⟨"Test Page", some "<p>Modified</p>",
        some ⟨12345, "Test Page", 1, "<p>Original</p>"⟩, none⟩
      {}).result.pages_updated = ({} : PushResult).pages_updated + 1 ∧
    (pushPageAtPath ⟨false, false, false⟩
      ⟨.ok ⟨some "<p>Original</p>"⟩, .error "Network error", .ok ()⟩ id ""
      ⟨"Test Page", some "<p>Modified</p>",
        some ⟨12345, "Test Page", 1, "<p>Original</p>"⟩, none⟩
      {}).events.updateCalls = 1 :=
  version_check_exception_proceeds ⟨false, false, false⟩
    ⟨.ok ⟨some "<p>Original</p>"⟩, .error "Network error", .ok ()⟩ id "" "Test Page"
    "<p>Modified</p>" ⟨12345, "Test Page", 1, "<p>Original</p>"⟩ none {} "Network error"
    rfl rfl rfl (by decide) rfl

/-- C9: when a push of an eligible page ends in a content skip or in a
non-forced version conflict, `_push_page_at_path` returns before attachment
processing: no attachment file is listed or uploaded and the attachment
counters are unchanged. -/
theorem content_stable_page_attachment_frame (cfg : PushConfig) (srv : ServerBehavior)
    (fmt : String → String) (inp path lc : String) (pi : PageMeta)
    (ad : Option (List AttDirFile)) (res : PushResult) :
    (hasContentChangedWithServer lc (getServerContent fmt pi srv.contentFetch) = false →
      (pushPageAtPath cfg srv fmt inp ⟨path, some lc, some pi, ad⟩
        res).events.examinedAttachments = [] ∧
      (pushPageAtPath cfg srv fmt inp ⟨path, some lc, some pi, ad⟩
        res).events.uploadedAttachments = [] ∧
      (pushPageAtPath cfg srv fmt inp ⟨path, some lc, some pi, ad⟩
        res).result.attachments_uploaded = res.attachments_uploaded ∧
      (pushPageAtPath cfg srv fmt inp ⟨path, some lc, some pi, ad⟩
        res).result.attachments_skipped = res.attachments_skipped) ∧
    (hasContentChangedWithServer lc (getServerContent fmt pi srv.contentFetch) = true →
      (checkVersionConflict pi srv.versionFetch).isSome = true →
      cfg.force = false →
      (pushPageAtPath cfg srv fmt inp ⟨path, some lc, some pi, ad⟩
        res).events.examinedAttachments = [] ∧
      (pushPageAtPath cfg srv fmt inp ⟨path, some lc, some pi, ad⟩
        res).events.uploadedAttachments = [] ∧
      (pushPageAtPath cfg srv fmt inp ⟨path, some lc, some pi, ad⟩
        res).result.attachments_uploaded = res.attachments_uploaded ∧
      (pushPageAtPath cfg srv fmt inp ⟨path, some lc, some pi, ad⟩
        res).result.attachments_skipped = res.attachments_skipped) := by
  constructor
  · intro hch
    rw [pushPageAtPath_skip cfg srv fmt inp path lc pi ad res hch]
    exact ⟨rfl, rfl, rfl, rfl⟩
  · intro hch hc hf
    rw [pushPageAtPath_conflict cfg srv fmt inp path lc pi ad res hch hc hf]
    exact ⟨rfl, rfl, rfl, rfl⟩

/-- Witness for C9: a content-stable page carrying a changed attachment
file, whose attachment is neither listed nor uploaded. -/
theorem content_stable_page_attachment_frame_witness :
    (hasContentChangedWithServer "<p>Content</p>"
        (getServerContent id ⟨12345, "Test Page", 1, ""⟩ (.ok ⟨some "<p>Content</p>"⟩)) = false →
      (pushPageAtPath ⟨false, false, false⟩
        ⟨.ok ⟨some "<p>Content</p>"⟩, .ok ⟨some ⟨some 1⟩⟩, .ok ()⟩ id ""
        ⟨"Test Page", some "<p>Content</p>", some ⟨12345, "Test Page", 1, ""⟩,
          some [⟨"test.pdf", false, 2048, none⟩]⟩
        {}).events.examinedAttachments = [] ∧
      (pushPageAtPath ⟨false, false, false⟩
        ⟨.ok ⟨some "<p>Content</p>"⟩, .ok ⟨some ⟨some 1⟩⟩, .ok ()⟩ id ""
        ⟨"Test Page", some "<p>Content</p>", some ⟨12345, "Test Page", 1, ""⟩,
          some [⟨"test.pdf", false, 2048, none⟩]⟩
        {}).events.uploadedAttachments = [] ∧
      (pushPageAtPath ⟨false, false, false⟩
        ⟨.ok ⟨some "<p>Content</p>"⟩, .ok ⟨some ⟨some 1⟩⟩, .ok ()⟩ id ""
        ⟨"Test Page", some "<p>Content</p>", some ⟨12345, "Test Page", 1, ""⟩,
          some [⟨"test.pdf", false, 2048, none⟩]⟩
        {}).result.attachments_uploaded = ({} : PushResult).attachments_uploaded ∧
      (pushPageAtPath ⟨false, false, false⟩
        ⟨.ok ⟨some "<p>Content</p>"⟩, .ok ⟨some ⟨some 1⟩⟩, .ok ()⟩ id ""
        ⟨"Test Page", some "<p>Content</p>", some ⟨12345, "Test Page", 1, ""⟩,
          some [⟨"test.pdf", false, 2048, none⟩]⟩
        {}).result.attachments_skipped = ({} : PushResult).attachments_skipped) ∧
    (hasContentChangedWithServer "<p>Content</p>"
        (getServerContent id ⟨12345, "Test Page", 1, ""⟩ (.ok ⟨some "<p>Content</p>"⟩)) = true →
      (checkVersionConflict ⟨12345, "Test Page", 1, ""⟩
        (Except.ok ⟨some ⟨some 1⟩⟩)).isSome = true →
      (⟨false, false, false⟩ : PushConfig).force = false →
      (pushPageAtPath ⟨false, false, false⟩
        ⟨.ok ⟨some "<p>Content</p>"⟩, .ok ⟨some ⟨some 1⟩⟩, .ok ()⟩ id ""
        ⟨"Test Page", some "<p>Content</p>", some ⟨12345, "Test Page", 1, ""⟩,
          some [⟨"test.pdf", false, 2048, none⟩]⟩
        {}).events.examinedAttachments = [] ∧
      (pushPageAtPath ⟨false, false, false⟩
        ⟨.ok ⟨some "<p>Content</p>"⟩, .ok ⟨some ⟨some 1⟩⟩, .ok ()⟩ id ""
        ⟨"Test Page", some "<p>Content</p>", some ⟨12345, "Test Page", 1, ""⟩,
          some [⟨"test.pdf", false, 2048, none⟩]⟩
        {}).events.uploadedAttachments = [] ∧
      (pushPageAtPath ⟨false, false, false⟩
        ⟨.ok ⟨some "<p>Content</p>"⟩, .ok ⟨some ⟨some 1⟩⟩, .ok ()⟩ id ""
        ⟨"Test Page", some "<p>Content</p>", some ⟨12345, "Test Page", 1, ""⟩,
          some [⟨"test.pdf", false, 2048, none⟩]⟩
        {}).result.attachments_uploaded = ({} : PushResult).attachments_uploaded ∧
      (pushPageAtPath ⟨false, false, false⟩
        ⟨.ok ⟨some "<p>Content</p>"⟩, .ok ⟨some ⟨some 1⟩⟩, .ok ()⟩ id ""
        ⟨"Test Page", some "<p>Content</p>", some ⟨12345, "Test Page", 1, ""⟩,
          some [⟨"test.pdf", false, 2048, none⟩]⟩
        {}).result.attachments_skipped = ({} : PushResult).attachments_skipped) :=
  content_stable_page_attachment_frame ⟨false, false, false⟩
    ⟨.ok ⟨some "<p>Content</p>"⟩, .ok ⟨some ⟨some 1⟩⟩, .ok ()⟩ id "" "Test Page"
    "<p>Content</p>" ⟨12345, "Test Page", 1, ""⟩ (some [⟨"test.pdf", false, 2048, none⟩]) {}

/-- C8: for a completed comparison run (under the diff tool's contract
that exit code 0 produces no output), exit 0 leaves `has_differences`
false; exit 1 with output sets it and invokes the pager; an exit code
greater than 1 appends exactly one error and leaves `has_differences` at
its prior value. -/
theorem diff_exit_code_behavior (res : DiffResult) (prc rc : Int) (out err : String)
    (htool : rc = 0 → out = "") :
    (rc = 0 → (runDiff (.completed rc out err) prc res).1.has_differences = false) ∧
    (rc = 1 → out ≠ "" →
      (runDiff (.completed rc out err) prc res).1.has_differences = true ∧
      (runDiff (.completed rc out err) prc res).2.pagerInvoked = true) ∧
    (rc > 1 →
      (runDiff (.completed rc out err) prc res).1.errors =
        res.errors ++ ["Diff command failed: " ++ err] ∧
      (runDiff (.completed rc out err) prc res).1.has_differences = res.has_differences) := by
  refine ⟨?_, ?_, ?_⟩
  · intro h0
    subst h0
    rw [htool rfl]
    simp [runDiff]
  · intro h1 hout
    subst h1
    have hbeq : (out == "") = false := beq_eq_false_iff_ne.mpr hout
    simp only [runDiff, if_neg (by norm_num : ¬ (1 : Int) > 1), hbeq, Bool.false_eq_true,
      if_false]
    split
    · exact ⟨by trivial, by trivial⟩
    · exact ⟨by trivial, by trivial⟩
  · intro hgt
    simp only [runDiff, if_pos hgt]
    exact ⟨by trivial, by trivial⟩

/-- Witness for C8: exit code 1 with a non-empty diff body. -/
theorem diff_exit_code_behavior_witness :
    ((1 : Int) = 0 →
      (runDiff (.completed 1 "-old\x0a+new\x0a" "") 0 {}).1.has_differences = false) ∧
    ((1 : Int) = 1 → "-old\x0a+new\x0a" ≠ "" →
      (runDiff (.completed 1 "-old\x0a+new\x0a" "") 0 {}).1.has_differences = true ∧
      (runDiff (.completed 1 "-old\x0a+new\x0a" "") 0 {}).2.pagerInvoked = true) ∧
    ((1 : Int) > 1 →
      (runDiff (.completed 1 "-old\x0a+new\x0a" "") 0 {}).1.errors =
        ({} : DiffResult).errors ++ ["Diff command failed: " ++ ""] ∧
      (runDiff (.completed 1 "-old\x0a+new\x0a" "") 0 {}).1.has_differences =
        ({} : DiffResult).has_differences) :=
  diff_exit_code_behavior {} 0 1 "-old\x0a+new\x0a" "" (by decide)

/-- C2: the descendant listing accumulates the result ids of exactly the
responses consumed by the pagination loop, which continues precisely while
a `next` continuation is present; in the concrete two-response scenario
(one result with a continuation, then one result without) a recursive pull
of a fresh mirror downloads exactly 3 pages. -/
theorem descendant_pagination_complete (env : PullEnv) (pid a b : Nat) (link : String)
    (pp pa pb : RemotePage)
    (hresp : env.descendantResponses = [⟨[a], some link⟩, ⟨[b], none⟩])
    (hp : env.fetchPage pid = .ok pp) (ha : env.fetchPage a = .ok pa)
    (hb : env.fetchPage b = .ok pb)
    (hfresh : ∀ i : Nat, (env.existing i).storedVersion = none) :
    (∀ rs : List SearchResponse,
      getAllDescendantIds rs = ((consumedResponses rs).map SearchResponse.results).flatten) ∧
    getAllDescendantIds env.descendantResponses = [a, b] ∧
    (pullPage env pid true).pages_downloaded = 3 := by
  have hids : getAllDescendantIds env.descendantResponses = [a, b] := by
    rw [hresp]
    simp [getAllDescendantIds]
  refine ⟨getAllDescendantIds_eq_flatten, hids, ?_⟩
  simp only [pullPage, hids, if_true, List.foldl_cons, List.foldl_nil]
  obtain ⟨d0, _, _⟩ := pullOnePage_fresh env pid {} pp hp (hfresh pid)
  obtain ⟨d1, _, _⟩ := pullOnePage_fresh env a (pullOnePage env pid {}) pa ha (hfresh a)
  obtain ⟨d2, _, _⟩ :=
    pullOnePage_fresh env b (pullOnePage env a (pullOnePage env pid {})) pb hb (hfresh b)
  rw [d2, d1, d0]

/-- Witness for C2: the paginated descendant search of the tests, ids 200
then 300, pulled recursively from parent 100 into a fresh mirror. -/
theorem descendant_pagination_complete_witness :
    (∀ rs : List SearchResponse,
      getAllDescendantIds rs = ((consumedResponses rs).map SearchResponse.results).flatten) ∧
    getAllDescendantIds (PullEnv.descendantResponses
      ⟨fun i => .ok ⟨i, "Page", "SPACE", "", 1, []⟩,
        [⟨[200], some "cursor"⟩, ⟨[300], none⟩],
        fun _ => [], fun _ => ⟨none, []⟩⟩) = [200, 300] ∧
    (pullPage
      ⟨fun i => .ok ⟨i, "Page", "SPACE", "", 1, []⟩,
        [⟨[200], some "cursor"⟩, ⟨[300], none⟩],
        fun _ => [], fun _ => ⟨none, []⟩⟩ 100 true).pages_downloaded = 3 :=
  descendant_pagination_complete
    ⟨fun i => .ok ⟨i, "Page", "SPACE", "", 1, []⟩,
      [⟨[200], some "cursor"⟩, ⟨[300], none⟩],
      fun _ => [], fun _ => ⟨none, []⟩⟩ 100 200 300 "cursor"
    ⟨100, "Page", "SPACE", "", 1, []⟩ ⟨200, "Page", "SPACE", "", 1, []⟩
    ⟨300, "Page", "SPACE", "", 1, []⟩ rfl rfl rfl rfl (fun _ => rfl)

/-- C6: a pull of a page whose stored metadata version equals the remote
version counts the page as skipped, yet still checks its attachments: an
attachment whose remote size differs from the recorded size is downloaded
even though the page itself was skipped. -/
theorem pull_skip_still_checks_attachments (env : PullEnv) (pid : Nat)
    (page : RemotePage) (att : RemoteAttachment) (s : Nat)
    (hf : env.fetchPage pid = .ok page)
    (hver : (env.existing pid).storedVersion = some page.version)
    (hatt : env.attachments pid = [att])
    (hsize : (env.existing pid).storedAttachmentSizes.lookup att.title = some s)
    (hne : s ≠ att.fileSize) :
    (pullOnePage env pid {}).pages_skipped = 1 ∧
    (pullOnePage env pid {}).pages_downloaded = 0 ∧
    (pullOnePage env pid {}).attachments_downloaded = 1 ∧
    (pullOnePage env pid {}).attachments_skipped = 0 := by
  have hup : isAttachmentUpToDate
      ((env.existing pid).storedAttachmentSizes.lookup att.title) att.fileSize = false := by
    rw [hsize]
    simp only [isAttachmentUpToDate, beq_eq_false_iff_ne, ne_eq]
    exact hne
  simp only [pullOnePage, hf, hver, hatt, beq_self_eq_true, if_true]
  simp [pullAttachmentsFor, pullAttachmentStep, hup]

/-- Witness for C6: page at version 2 both locally and remotely (skipped),
attachment recorded at 1024 bytes but 2048 bytes remotely (downloaded). -/
theorem pull_skip_still_checks_attachments_witness :
    (pullOnePage
      ⟨fun _ => .ok ⟨12345, "Test Page", "SPACE", "<p>Content</p>", 2, []⟩, [],
        fun _ => [⟨"file.pdf", 2048, "/download/file.pdf"⟩],
        fun _ => ⟨some 2, [("file.pdf", 1024)]⟩⟩ 12345 {}).pages_skipped = 1 ∧
    (pullOnePage
      ⟨fun _ => .ok ⟨12345, "Test Page", "SPACE", "<p>Content</p>", 2, []⟩, [],
        fun _ => [⟨"file.pdf", 2048, "/download/file.pdf"⟩],
        fun _ => ⟨some 2, [("file.pdf", 1024)]⟩⟩ 12345 {}).pages_downloaded = 0 ∧
    (pullOnePage
      ⟨fun _ => .ok ⟨12345, "Test Page", "SPACE", "<p>Content</p>", 2, []⟩, [],
        fun _ => [⟨"file.pdf", 2048, "/download/file.pdf"⟩],
        fun _ => ⟨some 2, [("file.pdf", 1024)]⟩⟩ 12345 {}).attachments_downloaded = 1 ∧
    (pullOnePage
      ⟨fun _ => .ok ⟨12345, "Test Page", "SPACE", "<p>Content</p>", 2, []⟩, [],
        fun _ => [⟨"file.pdf", 2048, "/download/file.pdf"⟩],
        fun _ => ⟨some 2, [("file.pdf", 1024)]⟩⟩ 12345 {}).attachments_skipped = 0 :=
  pull_skip_still_checks_attachments
    ⟨fun _ => .ok ⟨12345, "Test Page", "SPACE", "<p>Content</p>", 2, []⟩, [],
      fun _ => [⟨"file.pdf", 2048, "/download/file.pdf"⟩],
      fun _ => ⟨some 2, [("file.pdf", 1024)]⟩⟩ 12345
    ⟨12345, "Test Page", "SPACE", "<p>Content</p>", 2, []⟩
    ⟨"file.pdf", 2048, "/download/file.pdf"⟩ 1024 rfl rfl rfl (by decide) (by decide)
